import Mathlib

/-!
# Verification of the QanotAI speech-assessment pipeline

A shallow embedding of the speech-assessment pipeline of the QanotAI
backend (`app/services/ai_service.py`, `app/api/ai_assessment.py`,
`app/models/scoring_models.py`) together with proofs settling the
claims of the specification.

Modelling conventions:
* Python strings are modelled as lists of code points (`List Nat`);
  `str.split()`, `str.lower()`, `str.strip()` and `str.count` are given
  executable Lean counterparts (`pySplit`, `pyLower`, `pyStrip`,
  `countSub`) matching Python semantics on the ASCII texts the code
  manipulates.
* Python floats are modelled as rationals (`ℚ`).  Every float constant
  and operation appearing in the scoring code (multiples of 0.25,
  additions, subtractions, comparisons) is exact in binary floating
  point, so the rational model is faithful.
* Calls to external AI backends (`openai_service.transcribe_audio`,
  `openai_service.assess_ielts_response`) are modelled by passing the
  backend's behaviour as an explicit argument; `none` models the call
  raising an exception.
* `datetime`-valued bookkeeping fields (`created_at`,
  `processing_time_seconds` being a wall-clock measurement) are carried
  as inert data or omitted; no claim mentions them.
-/

namespace QanotAI

/-- Code points of a Lean string literal; used to transcribe the Python
string literals of the source into the `List Nat` text model. -/
def codes (s : String) : List Nat := s.data.map Char.toNat

/-- Whitespace test used by Python `str.split()` / `str.strip()`
(ASCII whitespace: space, tab, newline, carriage return, vertical tab,
form feed; the texts in the source are ASCII). -/
def isPySpace (c : Nat) : Bool :=
  decide (c = 32 ∨ c = 9 ∨ c = 10 ∨ c = 13 ∨ c = 11 ∨ c = 12)

/-- One code point of Python `str.lower()` (ASCII case mapping; the
texts in the source are ASCII). -/
def pyLowerChar (c : Nat) : Nat :=
  if 65 ≤ c ∧ c ≤ 90 then c + 32 else c

/-- Python `str.lower()` on the code-point model. -/
def pyLower (s : List Nat) : List Nat := s.map pyLowerChar

/-- Worker for `pySplit`: `cur` holds the (reversed) word being read. -/
def pySplitAux : List Nat → List Nat → List (List Nat)
  | [], [] => []
  | [], cur => [cur.reverse]
  | c :: rest, cur =>
    if isPySpace c then
      match cur with
      | [] => pySplitAux rest []
      | _ :: _ => cur.reverse :: pySplitAux rest []
    else
      pySplitAux rest (c :: cur)

/-- Python `str.split()` (no separator argument): split on runs of
whitespace, discarding empty words. -/
def pySplit (s : List Nat) : List (List Nat) := pySplitAux s []

/-- Python `str.strip()`: remove leading and trailing whitespace. -/
def pyStrip (s : List Nat) : List Nat :=
  ((s.dropWhile (fun c => isPySpace c)).reverse.dropWhile
    (fun c => isPySpace c)).reverse

/-- Python `str.count(sub)` for a non-empty pattern: number of
non-overlapping occurrences, scanning left to right. -/
def countSub (s p : List Nat) : Nat :=
  match s with
  | [] => 0
  | c :: rest =>
    if p.isPrefixOf (c :: rest) then
      1 + countSub (rest.drop (p.length - 1)) p
    else
      countSub rest p
termination_by s.length
decreasing_by
  · simp only [List.length_drop, List.length_cons]
    omega
  · simp only [List.length_cons]
    omega

/-- Python `" ".join(words)` on the code-point model. -/
def joinSpace (ws : List (List Nat)) : List Nat :=
  List.intercalate [32] ws

/-! ## Data model (`app/models/scoring_models.py`) -/

/-- `TranscriptSegment` (scoring_models.py).  The untyped `words` list
of dictionaries is not modelled; no code path nor claim reads it. -/
structure TranscriptSegment where
  text : List Nat
  confidence : ℚ := 0
  start_time : ℚ
  end_time : ℚ
  deriving DecidableEq

/-- `Transcript` (scoring_models.py).  The `id`, `created_at` and
`pauses` fields are inert bookkeeping never read by the pipeline and
are omitted; `processing_time_seconds` is a wall-clock measurement and
is carried as written by `transcribe_audio` but plays no role in any
claim. -/
structure Transcript where
  attempt_id : String
  part : String
  question_index : Nat
  text : List Nat
  segments : List TranscriptSegment := []
  confidence : ℚ := 0
  word_count : Nat := 0
  words_per_minute : ℚ := 0
  unique_words : Nat := 0
  filler_words : List (List Nat) := []
  hesitations : Nat := 0
  transcription_service : String := "whisper"
  model_version : String := "whisper-1"
  deriving DecidableEq

/-- `BandScore` (scoring_models.py); `id` / `created_at` omitted
(inert bookkeeping). -/
structure BandScore where
  attempt_id : String
  overall_band : ℚ := 0
  fluency_coherence : ℚ := 0
  lexical_resource : ℚ := 0
  grammatical_range_accuracy : ℚ := 0
  pronunciation : ℚ := 0
  part1_score : Option ℚ := none
  part2_score : Option ℚ := none
  part3_score : Option ℚ := none
  target_band : Option ℚ := none
  gap_to_target : Option ℚ := none
  scoring_model : String := "gpt-4"
  scoring_version : String := "v1.0"
  confidence_level : ℚ := 0
  deriving DecidableEq

/-! ## TranscriptionService (`app/services/ai_service.py`, lines 22–154)

The external Whisper backend (`openai_service.transcribe_audio`) is
modelled by a function `backend : List Nat → Nat → Option WhisperResult`:
`backend audio n` is the outcome of the `(n+1)`-st call to the backend
on the bytes `audio` (`none` = the call raises), so the transcript
returned on success depends on the audio through the backend, exactly
as in the source, where `audio_data` is written to a temp file and
passed to `openai_service.transcribe_audio` (lines 58-64).  The source
makes exactly one such call, inside a single `try` with no retry loop,
so only call index 0 is ever consulted. -/

/-- One element of the `segments` list of a Whisper response
(`openai_service.transcribe_audio` always returns a `segments` key, so
the `if "segments" in result` guard of the source is always taken). -/
structure WhisperSegment where
  text : List Nat
  start : ℚ
  «end» : ℚ
  deriving DecidableEq

/-- The dictionary returned by `openai_service.transcribe_audio`:
`{"text": …, "segments": …}` (the `duration`/`language`/`words`
entries are never read by `_transcribe_with_whisper`). -/
structure WhisperResult where
  text : List Nat
  segments : List WhisperSegment
  deriving DecidableEq

/-- The sample text of `TranscriptionService._mock_transcription`
(the Python triple-quoted literal, including its indentation and line
breaks). -/
def mockSampleText : List Nat := codes
  ("\n        Well, I really enjoy living in my hometown because it has a perfect balance \n        between modern amenities and traditional culture. Um, the people are very \n        friendly and welcoming, you know, and there are many parks where I can relax. \n        The food is absolutely delicious, especially our local dishes.\n        ")

/-- The mock segments built by `_mock_transcription`: for
`i in range(0, len(words), 10)` one segment of ten words with
confidence `0.90 + (i % 3) * 0.03` and times `i*1.5` / `(i+10)*1.5`. -/
def mockSegments (words : List (List Nat)) : List TranscriptSegment :=
  (List.range ((words.length + 9) / 10)).map (fun j =>
    let i := j * 10
    { text := joinSpace ((words.drop i).take 10)
      confidence := 9/10 + ((i % 3 : Nat) : ℚ) * (3/100)
      start_time := (i : ℚ) * (3/2)
      end_time := ((i + 10 : Nat) : ℚ) * (3/2) })

/-- `TranscriptionService._mock_transcription` (lines 100–132). -/
def mock_transcription : Transcript :=
  { attempt_id := "mock"
    part := "part1"
    question_index := 0
    text := pyStrip mockSampleText
    confidence := 92/100
    word_count := (pySplit mockSampleText).length
    transcription_service := "mock"
    model_version := "demo-1.0"
    segments := mockSegments (pySplit mockSampleText) }

/-- `TranscriptionService._transcribe_with_whisper` (lines 54–98): one
backend call; on success a transcript with confidence 0.9 is built from
the response, on any exception the function returns
`_mock_transcription()` (no retry). -/
def transcribe_with_whisper (backend : List Nat → Nat → Option WhisperResult)
    (audio_data : List Nat) : Transcript :=
  match backend audio_data 0 with
  | some result =>
    { attempt_id := ""
      part := ""
      question_index := 0
      text := result.text
      confidence := 9/10
      transcription_service := "openai-whisper"
      model_version := "whisper-1"
      segments := result.segments.map (fun seg =>
        { text := seg.text
          confidence := 9/10
          start_time := seg.start
          end_time := seg.«end» }) }
  | none => mock_transcription

/-- The fixed filler-word lexicon of `_analyze_transcript` (line 148). -/
def filler_words_lexicon : List (List Nat) :=
  [codes "um", codes "uh", codes "err", codes "like", codes "you know",
   codes "actually", codes "basically"]

/-- `TranscriptionService._analyze_transcript` (lines 134–154): derived
metrics recomputed from `text.lower()`; the stored `text` itself is not
modified. -/
def analyze_transcript (t : Transcript) : Transcript :=
  let text := pyLower t.text
  let words := pySplit text
  { t with
    word_count := words.length
    unique_words := words.dedup.length
    words_per_minute := ((words.length : ℚ) / 30) * 60
    filler_words := words.filter (fun w => filler_words_lexicon.contains w)
    hesitations := countSub text (codes "...") + countSub text (codes "um")
      + countSub text (codes "uh") }

/-- `TranscriptionService.transcribe_audio` (lines 29–52).  The audio
bytes are modelled as `List Nat`; the source forwards them to the
backend (whose response is the `backend` argument) and performs no
validation of its own — neither emptiness nor the configured
`MIN_AUDIO_DURATION_MS`/`MAX_AUDIO_DURATION_MS` bounds are checked
anywhere in the transcription path. -/
def transcribe_audio (provider : String) (openai_key : Option String)
    (backend : List Nat → Nat → Option WhisperResult)
    (audio_data : List Nat) : Transcript :=
  let transcript :=
    if provider = "openai" ∧ openai_key.isSome then
      transcribe_with_whisper backend audio_data
    else
      mock_transcription
  analyze_transcript transcript

/-- Result of an HTTP endpoint: either a payload or an error status
with detail. -/
inductive ApiResult (α : Type) where
  | ok (value : α)
  | error (status : Nat) (detail : String)
  deriving DecidableEq

/-- Whether an `ApiResult` is a success. -/
def ApiResult.isOk {α : Type} : ApiResult α → Bool
  | .ok _ => true
  | .error _ _ => false

/-- Payload of a successful `ApiResult` (used to state properties of
endpoint outputs). -/
def ApiResult.toOption {α : Type} : ApiResult α → Option α
  | .ok v => some v
  | .error _ _ => none

/-- `POST /api/v1/assessment/transcribe` (`ai_assessment.transcribe_audio`,
lines 33–71): reads the uploaded bytes, transcribes them, fills in the
metadata (`attempt_id or str(uuid.uuid4())` — Python truthiness, so the
empty string also yields a fresh uuid — and `part or "unknown"`), and
returns the transcript.  The only `except` clause re-raises service
exceptions as HTTP 500; the service itself performs no audio
validation, so the model has no error branch. -/
def transcribe_endpoint (provider : String) (openai_key : Option String)
    (backend : List Nat → Nat → Option WhisperResult) (audio_data : List Nat)
    (attempt_id part : Option String) (question_index : Nat)
    (fresh_uuid : String) : ApiResult Transcript :=
  let t := transcribe_audio provider openai_key backend audio_data
  ApiResult.ok
    { t with
      attempt_id := match attempt_id with
        | some a => if a = "" then fresh_uuid else a
        | none => fresh_uuid
      part := match part with
        | some p => if p = "" then "unknown" else p
        | none => "unknown"
      question_index := question_index }

/-! ## ScoringService (`app/services/ai_service.py`, lines 157–295) -/

/-- The JSON dictionary returned by
`openai_service.assess_ielts_response`, as read by `_score_with_gpt`:
each band key may be absent (`result.get(key, 6.0)`). -/
structure AssessResult where
  overall_band : Option ℚ := none
  fluency_coherence : Option ℚ := none
  lexical_resource : Option ℚ := none
  grammatical_range : Option ℚ := none
  pronunciation : Option ℚ := none
  deriving DecidableEq

/-- `avg_words` of `_mock_scoring` (line 236): mean word count over a
non-empty transcript list (Python float division, exact here). -/
def avgWords (transcripts : List Transcript) : ℚ :=
  ((transcripts.map (fun t => t.word_count)).sum : ℚ) / transcripts.length

/-- `total_fillers` of `_mock_scoring` (line 243). -/
def totalFillers (transcripts : List Transcript) : Nat :=
  (transcripts.map (fun t => t.filler_words.length)).sum

/-- The `base_score` computation of `_mock_scoring` (lines 232–250):
start at 6.0; for a non-empty list add 0.5 when the average word count
exceeds 50 and again when it exceeds 80, add 0.5 when fewer than 3
filler words occur in total, subtract 0.5 when more than 10 do; finally
clamp with `min(9.0, max(4.0, base_score))`. -/
def mockBase (transcripts : List Transcript) : ℚ :=
  let base : ℚ := 6
  let base :=
    if transcripts.isEmpty then base
    else
      let avg_words := avgWords transcripts
      let b1 := if avg_words > 50 then base + 1/2 else base
      let b2 := if avg_words > 80 then b1 + 1/2 else b1
      let total_fillers := totalFillers transcripts
      if total_fillers < 3 then b2 + 1/2
      else if total_fillers > 10 then b2 - 1/2
      else b2
  min 9 (max 4 base)

/-- `ScoringService._mock_scoring` (lines 229–265). -/
def mock_scoring (transcripts : List Transcript) : BandScore :=
  let base_score := mockBase transcripts
  { attempt_id := match transcripts with
      | [] => "mock"
      | t :: _ => t.attempt_id
    overall_band := base_score
    fluency_coherence := base_score + 1/2
    lexical_resource := base_score - 1/2
    grammatical_range_accuracy := base_score
    pronunciation := base_score + 1/2
    part1_score := some base_score
    part2_score := some (base_score - 1/2)
    part3_score := some (base_score + 1/2)
    scoring_model := "mock"
    scoring_version := "demo-1.0"
    confidence_level := 3/4 }

/-- `ScoringService._score_with_gpt` (lines 192–227).  For an empty
transcript list the expression `transcripts[0].part` (line 204, reached
before the backend call) raises `IndexError`, which the enclosing
`except` turns into `_mock_scoring(transcripts)`; likewise a backend
exception (`gptBackend = none`) falls back to the mock scorer.  On
success every band is copied from the backend response with default
6.0, `overall_band` included — it is not recomputed from the four
criterion scores. -/
def score_with_gpt (gptBackend : Option AssessResult)
    (transcripts : List Transcript) : BandScore :=
  match transcripts with
  | [] => mock_scoring []
  | t0 :: _ =>
    match gptBackend with
    | none => mock_scoring transcripts
    | some result =>
      { attempt_id := t0.attempt_id
        overall_band := result.overall_band.getD 6
        fluency_coherence := result.fluency_coherence.getD 6
        lexical_resource := result.lexical_resource.getD 6
        grammatical_range_accuracy := result.grammatical_range.getD 6
        pronunciation := result.pronunciation.getD 6
        scoring_model := "gpt-4-turbo"
        scoring_version := "2024-01"
        confidence_level := 85/100 }

/-- The target comparison of `calculate_band_score` (lines 185–188):
`if target_band:` is Python truthiness, so a supplied target of `0.0`
is skipped exactly like `None`; otherwise `target_band` and
`gap_to_target = target_band - overall_band` are written onto the
score. -/
def apply_target (target_band : Option ℚ) (score : BandScore) : BandScore :=
  match target_band with
  | some tb =>
    if tb = 0 then score
    else { score with
      target_band := some tb
      gap_to_target := some (tb - score.overall_band) }
  | none => score

/-- `ScoringService.calculate_band_score` (lines 165–190).  The
anthropic branch calls `self._score_with_claude`, a method that is
nowhere defined in the class, so that branch raises `AttributeError`
(modelled as `Except.error`, raised before the target comparison is
reached). -/
def calculate_band_score (ai_provider : String)
    (openai_key anthropic_key : Option String)
    (gptBackend : Option AssessResult)
    (transcripts : List Transcript) (target_band : Option ℚ) :
    Except String BandScore :=
  if ai_provider = "openai" ∧ openai_key.isSome then
    Except.ok (apply_target target_band (score_with_gpt gptBackend transcripts))
  else if ai_provider = "anthropic" ∧ anthropic_key.isSome then
    Except.error "AttributeError: ScoringService has no attribute _score_with_claude"
  else
    Except.ok (apply_target target_band (mock_scoring transcripts))

/-! ## FeedbackService (`app/services/ai_service.py`, lines 298–554) -/

/-- `FeedbackReport` (scoring_models.py); `id`, `score_id`,
`created_at` and the never-populated `strength_examples` /
`improvement_examples` lists are omitted (inert bookkeeping). -/
structure FeedbackReport where
  attempt_id : String
  summary : String
  overall_impression : String
  strengths : List String := []
  improvements : List String := []
  fluency_feedback : String := ""
  lexical_feedback : String := ""
  grammar_feedback : String := ""
  pronunciation_feedback : String := ""
  action_items : List String := []
  recommended_practice : List String := []
  estimated_improvement_time : String := ""
  deriving DecidableEq

/-- Rendering of a Python float that is a non-negative multiple of 0.5,
as interpolated by the f-string of `_generate_impression` (all band
values in this system are such multiples). -/
def bandRepr (q : ℚ) : String :=
  toString ⌊q⌋ ++ (if q - (⌊q⌋ : ℚ) = 1/2 then ".5" else ".0")

/-- Python `max(scores, key=scores.get)` over an insertion-ordered
dict, embedded over the ordered entry list: the fold replaces the
current best only on a strictly greater value, so the first maximal
entry wins. -/
def pyMaxByValue (p : String × ℚ) (rest : List (String × ℚ)) : String :=
  (rest.foldl (fun best q => if q.2 > best.2 then q else best) p).1

/-- Python `min(scores, key=scores.get)`: the first minimal entry
wins. -/
def pyMinByValue (p : String × ℚ) (rest : List (String × ℚ)) : String :=
  (rest.foldl (fun best q => if q.2 < best.2 then q else best) p).1

/-- `FeedbackService._get_strongest_area` (lines 401–409); the dict is
built in the order fluency, vocabulary, grammar, pronunciation. -/
def get_strongest_area (score : BandScore) : String :=
  pyMaxByValue ("fluency", score.fluency_coherence)
    [("vocabulary", score.lexical_resource),
     ("grammar", score.grammatical_range_accuracy),
     ("pronunciation", score.pronunciation)]

/-- `FeedbackService._get_weakest_area` (lines 411–419). -/
def get_weakest_area (score : BandScore) : String :=
  pyMinByValue ("fluency", score.fluency_coherence)
    [("vocabulary", score.lexical_resource),
     ("grammar", score.grammatical_range_accuracy),
     ("pronunciation", score.pronunciation)]

/-- `FeedbackService._generate_summary` (lines 382–391). -/
def generate_summary (score : BandScore) : String :=
  if score.overall_band ≥ 7 then
    "Excellent performance! You demonstrate strong English speaking skills."
  else if score.overall_band ≥ 6 then
    "Good performance with room for improvement in specific areas."
  else if score.overall_band ≥ 5 then
    "Adequate performance. Focus on expanding vocabulary and improving fluency."
  else
    "Basic communication achieved. Significant practice needed in all areas."

/-- `FeedbackService._generate_impression` (lines 393–399). -/
def generate_impression (score : BandScore) : String :=
  "\n        Your current speaking level is Band " ++ bandRepr score.overall_band
    ++ ". \n        You show particular strength in " ++ get_strongest_area score
    ++ " \n        while " ++ get_weakest_area score
    ++ " needs the most attention.\n        "

/-- `FeedbackService._identify_strengths` (lines 421–434). -/
def identify_strengths (score : BandScore) (_transcripts : List Transcript) :
    List String :=
  let strengths :=
    (if score.fluency_coherence ≥ 13/2 then
      ["Good fluency with natural speech flow"] else [])
    ++ (if score.lexical_resource ≥ 13/2 then
      ["Wide vocabulary range with appropriate word choice"] else [])
    ++ (if score.grammatical_range_accuracy ≥ 13/2 then
      ["Complex sentence structures used effectively"] else [])
    ++ (if score.pronunciation ≥ 13/2 then
      ["Clear pronunciation with good intonation"] else [])
  if strengths.isEmpty then ["Consistent effort throughout the test"]
  else strengths

/-- `FeedbackService._identify_improvements` (lines 436–449). -/
def identify_improvements (score : BandScore) (_transcripts : List Transcript) :
    List String :=
  let improvements :=
    (if score.fluency_coherence < 6 then
      ["Reduce hesitations and improve speech flow"] else [])
    ++ (if score.lexical_resource < 6 then
      ["Expand vocabulary and use more varied expressions"] else [])
    ++ (if score.grammatical_range_accuracy < 6 then
      ["Work on grammar accuracy and sentence variety"] else [])
    ++ (if score.pronunciation < 6 then
      ["Practice pronunciation of difficult sounds"] else [])
  if improvements.isEmpty then ["Maintain consistency across all criteria"]
  else improvements

/-- `FeedbackService._fluency_feedback` (lines 451–458). -/
def fluency_feedback (score : ℚ) : String :=
  if score ≥ 7 then
    "Excellent fluency with rare hesitation. Ideas flow naturally."
  else if score ≥ 6 then
    "Generally fluent with occasional self-correction. Work on reducing pauses."
  else
    "Noticeable pauses affect fluency. Practice speaking continuously for longer periods."

/-- `FeedbackService._lexical_feedback` (lines 460–467). -/
def lexical_feedback (score : ℚ) : String :=
  if score ≥ 7 then
    "Good vocabulary range with precise word choices."
  else if score ≥ 6 then
    "Adequate vocabulary for most topics. Try using more idiomatic expressions."
  else
    "Limited vocabulary range. Focus on learning topic-specific vocabulary."

/-- `FeedbackService._grammar_feedback` (lines 469–476). -/
def grammar_feedback (score : ℚ) : String :=
  if score ≥ 7 then
    "Complex structures used accurately with rare errors."
  else if score ≥ 6 then
    "Mix of simple and complex structures. Some errors don\x27t impede communication."
  else
    "Basic structures with frequent errors. Review fundamental grammar rules."

/-- `FeedbackService._pronunciation_feedback` (lines 478–485). -/
def pronunciation_feedback (score : ℚ) : String :=
  if score ≥ 7 then
    "Clear pronunciation with natural intonation patterns."
  else if score ≥ 6 then
    "Generally clear with occasional mispronunciation."
  else
    "Pronunciation issues affect clarity. Practice individual sounds and word stress."

/-- `FeedbackService._generate_action_items` (lines 487–500). -/
def generate_action_items (score : BandScore) : List String :=
  let items :=
    (if score.fluency_coherence < score.overall_band then
      ["Practice speaking for 2 minutes without stopping"] else [])
    ++ (if score.lexical_resource < score.overall_band then
      ["Learn 10 new words daily with example sentences"] else [])
    ++ (if score.grammatical_range_accuracy < score.overall_band then
      ["Complete grammar exercises focusing on complex structures"] else [])
    ++ (if score.pronunciation < score.overall_band then
      ["Record yourself and compare with native speakers"] else [])
  if items.isEmpty then ["Maintain current practice routine"] else items

/-- `FeedbackService._recommend_practice` (lines 502–509). -/
def recommend_practice (_score : BandScore) : List String :=
  ["Daily 5-minute impromptu speaking on random topics",
   "Watch English news and repeat key phrases",
   "Join online speaking clubs for regular practice",
   "Use QanotAI\x27s daily challenges feature"]

/-- `FeedbackService._estimate_improvement_time` (lines 511–520); the
guard `if score.gap_to_target:` is Python truthiness, so a gap of `0.0`
(and `None`) selects the default message. -/
def estimate_improvement_time (score : BandScore) : String :=
  match score.gap_to_target with
  | some g =>
    if g = 0 then "Continuous practice recommended"
    else if g ≤ 1/2 then "2-4 weeks with intensive practice"
    else if g ≤ 1 then "4-8 weeks with regular practice"
    else "2-3 months with structured learning"
  | none => "Continuous practice recommended"

/-- `FeedbackService.generate_feedback` (lines 301–336). -/
def generate_feedback (score : BandScore) (transcripts : List Transcript) :
    FeedbackReport :=
  { attempt_id := score.attempt_id
    summary := generate_summary score
    overall_impression := generate_impression score
    strengths := identify_strengths score transcripts
    improvements := identify_improvements score transcripts
    fluency_feedback := fluency_feedback score.fluency_coherence
    lexical_feedback := lexical_feedback score.lexical_resource
    grammar_feedback := grammar_feedback score.grammatical_range_accuracy
    pronunciation_feedback := pronunciation_feedback score.pronunciation
    action_items := generate_action_items score
    recommended_practice := recommend_practice score
    estimated_improvement_time := estimate_improvement_time score }

/-! ## Task orchestration (`app/api/ai_assessment.py`)

`tasks_db` is a module-level Python dict mapping task ids to task
dicts; it is modelled as an association list with dict-update
semantics.  `process_scoring` runs as a FastAPI background task,
scheduled exactly once per task at creation (line 146); its observable
writes to `tasks_db[task_id]["status"]` are
`"pending"` (at creation) → `"processing"` (line 164) →
`"completed"` (line 194) or `"failed"` (line 199).  The small-step
relation `Step` below has one constructor per such write, with
enabledness conditions that encode exactly when the source can perform
the write (a fresh uuid for creation; the single scheduled execution of
`process_scoring` for the task, whose body sets `processing` first and
a terminal status last).  `get_task_status` and the other endpoints
only read `tasks_db`, so they contribute no step. -/

/-- The `status` strings stored in `tasks_db`. -/
inductive TaskStatus where
  | pending
  | processing
  | completed
  | failed
  deriving DecidableEq

/-- One entry of `tasks_db` (`ai_assessment.py` lines 138–143 and
193–200); the `created_at` timestamp is inert and omitted. -/
structure TaskRecord where
  id : String
  status : TaskStatus
  attempt_id : String
  score_id : Option String := none
  feedback_id : Option String := none
  error : Option String := none
  deriving DecidableEq

/-- The `tasks_db` dictionary. -/
def TasksDb : Type := List (String × TaskRecord)

/-- Dict update `tasks_db[k] = v`: overwrite the binding of `k` when
present, append it otherwise. -/
def dbSet : TasksDb → String → TaskRecord → TasksDb
  | [], k, v => [(k, v)]
  | (k', v') :: rest, k, v =>
    if k' = k then (k, v) :: rest else (k', v') :: dbSet rest k v

/-- Dict lookup `tasks_db.get(k)` / `k in tasks_db`. -/
def dbGet : TasksDb → String → Option TaskRecord
  | [], _ => none
  | (k', v') :: rest, k => if k' = k then some v' else dbGet rest k

/-- `ScoringResponse` (scoring_models.py lines 158–163). -/
structure ScoringResponse where
  task_id : String
  status : String
  estimated_time_seconds : Nat
  result_url : Option String := none
  deriving DecidableEq

/-- `POST /api/v1/assessment/score` (`ai_assessment.score_attempt`,
lines 120–157): unconditionally store a fresh task dict with status
`"pending"` under a fresh uuid, schedule `process_scoring`, and answer
`pending`.  There is no lookup of existing tasks for the attempt and no
failure branch of any kind. -/
def score_attempt (db : TasksDb) (task_id attempt_id : String)
    (urgent : Bool) : TasksDb × ScoringResponse :=
  (dbSet db task_id
    { id := task_id, status := .pending, attempt_id := attempt_id },
   { task_id := task_id
     status := "pending"
     estimated_time_seconds := if urgent then 15 else 30 })

/-- `GET /api/v1/assessment/task/{task_id}`
(`ai_assessment.get_task_status`, lines 268–295): a pure read of
`tasks_db`; 404 when the id is absent.  The response dict is projected
to the fields a claim could mention. -/
def get_task_status (db : TasksDb) (task_id : String) :
    ApiResult (String × TaskStatus × String) :=
  match dbGet db task_id with
  | none => ApiResult.error 404 "Task not found"
  | some task => ApiResult.ok (task_id, task.status, task.attempt_id)

/-- Position of the single `process_scoring` execution that
`score_attempt` schedules for a task (`background_tasks.add_task`,
line 146): queued but not yet entered, entered (the first statement of
the body, line 164, has run), or exited (through line 196 or the
`except` handler, line 200).  FastAPI's background runner executes the
scheduled body exactly once, which is what this bookkeeping records —
it is runner state, not a field of the task dict. -/
inductive Phase where
  | scheduled
  | running
  | finished
  deriving DecidableEq

/-- The background runner's bookkeeping: which tasks have a scheduled
execution and how far it has progressed. -/
def PhaseMap : Type := List (String × Phase)

/-- Update of the runner bookkeeping (same dict semantics as `dbSet`). -/
def phaseSet : PhaseMap → String → Phase → PhaseMap
  | [], k, v => [(k, v)]
  | (k', v') :: rest, k, v =>
    if k' = k then (k, v) :: rest else (k', v') :: phaseSet rest k v

/-- Lookup in the runner bookkeeping. -/
def phaseGet : PhaseMap → String → Option Phase
  | [], _ => none
  | (k', v') :: rest, k => if k' = k then some v' else phaseGet rest k

/-- A system state: the `tasks_db` dict together with the background
runner's bookkeeping. -/
def SysState : Type := TasksDb × PhaseMap

/-- The initial state: `tasks_db = {}` at module load, nothing
scheduled. -/
def sysInit : SysState := ([], [])

/-- Small-step semantics of the writes to `tasks_db`.
`create` is `score_attempt` storing a fresh-uuid task (lines 135–143)
and scheduling its single `process_scoring` execution (line 146);
`start` is line 164, the first statement of that execution, writing
`"processing"` unconditionally; `finishOk` (lines 194–196) and
`finishFail` (lines 199–200) are the two exits of the same execution.
The status writes carry no status precondition — exactly as in the
source — only the position of the once-scheduled execution gates them;
the status/phase correspondence is proved as an invariant
(`PhaseInv`), not assumed.  Polling (`get_task_status`) and the other
endpoints only read `tasks_db`, so they contribute no step. -/
inductive Step : SysState → SysState → Prop where
  | create (s : SysState) (task_id attempt_id : String)
      (hfresh : dbGet s.1 task_id = none) :
      Step s
        (dbSet s.1 task_id
          { id := task_id, status := .pending, attempt_id := attempt_id },
         phaseSet s.2 task_id .scheduled)
  | start (s : SysState) (task_id : String) (t : TaskRecord)
      (hph : phaseGet s.2 task_id = some .scheduled)
      (hget : dbGet s.1 task_id = some t) :
      Step s
        (dbSet s.1 task_id { t with status := .processing },
         phaseSet s.2 task_id .running)
  | finishOk (s : SysState) (task_id score_id feedback_id : String)
      (t : TaskRecord)
      (hph : phaseGet s.2 task_id = some .running)
      (hget : dbGet s.1 task_id = some t) :
      Step s
        (dbSet s.1 task_id
          { t with status := .completed, score_id := some score_id,
                   feedback_id := some feedback_id },
         phaseSet s.2 task_id .finished)
  | finishFail (s : SysState) (task_id error_msg : String) (t : TaskRecord)
      (hph : phaseGet s.2 task_id = some .running)
      (hget : dbGet s.1 task_id = some t) :
      Step s
        (dbSet s.1 task_id
          { t with status := .failed, error := some error_msg },
         phaseSet s.2 task_id .finished)

/-- Reachability of one system state from another by the pipeline
operations. -/
def Reaches : SysState → SysState → Prop := Relation.ReflTransGen Step

/-- The status/phase correspondence: an unscheduled id has no task,
and the phase of the scheduled execution determines the task's
status class (scheduled ↦ pending, running ↦ processing,
finished ↦ completed/failed). -/
def PhaseInv (s : SysState) : Prop := ∀ tid : String,
  (phaseGet s.2 tid = none → dbGet s.1 tid = none)
  ∧ (phaseGet s.2 tid = some .scheduled →
      ∃ t, dbGet s.1 tid = some t ∧ t.status = .pending)
  ∧ (phaseGet s.2 tid = some .running →
      ∃ t, dbGet s.1 tid = some t ∧ t.status = .processing)
  ∧ (phaseGet s.2 tid = some .finished →
      ∃ t, dbGet s.1 tid = some t
        ∧ (t.status = .completed ∨ t.status = .failed))

/-- The status transitions a single step may induce on one task id:
nothing, appearance as `pending`, `pending → processing`, or
`processing → completed/failed`. -/
def statusStepOK : Option TaskStatus → Option TaskStatus → Prop
  | none, none => True
  | none, some s => s = .pending
  | some s, some s' =>
    s = s' ∨ (s = .pending ∧ s' = .processing)
      ∨ (s = .processing ∧ (s' = .completed ∨ s' = .failed))
  | some _, none => False

/-- Status of one task in a `tasks_db` state. -/
def statusOf (db : TasksDb) (task_id : String) : Option TaskStatus :=
  (dbGet db task_id).map (fun t => t.status)

/-- Number of tasks of `tasks_db` for `attempt_id` in a non-terminal
(pending or processing) status. -/
def nonTerminalTasks (db : TasksDb) (attempt_id : String) : Nat :=
  (db.filter (fun p => decide (p.2.attempt_id = attempt_id
    ∧ (p.2.status = .pending ∨ p.2.status = .processing)))).length

/-! ## Spec-side definitions

These definitions follow the wording of the specification (not the
source); they exist to be compared with the source-derived definitions
above. -/

/-- Spec wording (§4.2/§8): the overall band as "the mean of the four
criteria rounded to the nearest 0.5" (halves rounded up). -/
def roundToNearestHalf (q : ℚ) : ℚ := ((⌊2 * q + 1/2⌋ : ℤ) : ℚ) / 2

/-- Spec wording (§4.3): a score-banded template set with
`≥7.0 / ≥6.0 / <6.0` tiers. -/
structure TierTemplates where
  high : String
  mid : String
  low : String
  deriving DecidableEq

/-- Spec wording (§4.3): the feedback string for a criterion is chosen
from its template set by score tier. -/
def specSelectByTier (t : TierTemplates) (score : ℚ) : String :=
  if score ≥ 7 then t.high else if score ≥ 6 then t.mid else t.low

/-- Spec wording (§4.3): the strongest area is the maximum of the four
criteria, ties broken by the fixed order fluency, lexical (the source
labels it "vocabulary"), grammar, pronunciation: the first criterion in
that order attaining the maximum. -/
def specFirstMax (f l g p : ℚ) : String :=
  let m := max (max (max f l) g) p
  if f = m then "fluency"
  else if l = m then "vocabulary"
  else if g = m then "grammar"
  else "pronunciation"

/-- Spec wording (§4.3): the weakest area is the minimum of the four
criteria with the same tie order. -/
def specFirstMin (f l g p : ℚ) : String :=
  let m := min (min (min f l) g) p
  if f = m then "fluency"
  else if l = m then "vocabulary"
  else if g = m then "grammar"
  else "pronunciation"

/-- Spec wording (§4.2, Scenario D): when scoring succeeds with target
`tb`, the score carries `target_band = tb` and
`gap_to_target = tb - overall_band`. -/
def gapOK (tb : ℚ) : Except String BandScore → Prop
  | .ok s => s.target_band = some tb
      ∧ s.gap_to_target = some (tb - s.overall_band)
  | .error _ => True

/-! ## Concrete test vectors

Concrete inputs used by counterexamples and witnesses. -/

/-- A transcript whose derived metrics give the mock scorer an average
word count of 60 and 3 filler words (hence `mockBase = 6.5`). -/
def tWords60 : Transcript :=
  { attempt_id := "attempt-1"
    part := "part1"
    question_index := 0
    text := codes "sixty words of text"
    confidence := 9/10
    word_count := 60
    filler_words := [codes "um", codes "uh", codes "um"] }

/-- A different transcript with the same average word count (60) and
the same filler count (3) as `tWords60`. -/
def tWords60' : Transcript :=
  { attempt_id := "attempt-2"
    part := "part2"
    question_index := 1
    text := codes "other text entirely"
    confidence := 1/2
    word_count := 60
    filler_words := [codes "like", codes "like", codes "err"] }

/-- A sample successful Whisper backend response. -/
def wresSample : WhisperResult :=
  { text := codes "I enjoy living in my hometown"
    segments := [{ text := codes "I enjoy living in my hometown"
                   start := 0, «end» := 3 }] }

/-- A backend assessment answering criteria (7,7,7,7) with overall 9. -/
def assessHighOverall : AssessResult :=
  { overall_band := some 9
    fluency_coherence := some 7
    lexical_resource := some 7
    grammatical_range := some 7
    pronunciation := some 7 }

/-- A backend assessment answering the same criteria (7,7,7,7) but
overall 5. -/
def assessLowOverall : AssessResult :=
  { overall_band := some 5
    fluency_coherence := some 7
    lexical_resource := some 7
    grammatical_range := some 7
    pronunciation := some 7 }

/-- A backend call sequence whose first call fails and whose second
call would succeed (used to exhibit the absence of a retry). -/
def failThenSucceed : List Nat → Nat → Option WhisperResult :=
  fun _ n => if n = 0 then none else some wresSample

/-- A fresh pending task record. -/
def taskPending2 : TaskRecord :=
  { id := "task-2"
    status := .pending
    attempt_id := "attempt-A" }

/-- A pending task record for `task-1`. -/
def taskPending1 : TaskRecord :=
  { id := "task-1"
    status := .pending
    attempt_id := "attempt-A" }

/-- `task-1` after the `start` write of its execution. -/
def rec1Processing : TaskRecord := { taskPending1 with status := .processing }

/-- `task-1` after the `finishOk` write of its execution. -/
def rec1Completed : TaskRecord :=
  { rec1Processing with
    status := .completed
    score_id := some "score-1"
    feedback_id := some "fb-1" }

/-- The system state after creating `task-1`. -/
def sys1 : SysState :=
  (dbSet sysInit.1 "task-1" taskPending1,
   phaseSet sysInit.2 "task-1" .scheduled)

/-- The system state after the execution of `task-1` has started. -/
def sys2 : SysState :=
  (dbSet sys1.1 "task-1" rec1Processing, phaseSet sys1.2 "task-1" .running)

/-- The system state after the execution of `task-1` has completed. -/
def sys3 : SysState :=
  (dbSet sys2.1 "task-1" rec1Completed, phaseSet sys2.2 "task-1" .finished)

/-- `sys3` after additionally creating `task-2`. -/
def sys4 : SysState :=
  (dbSet sys3.1 "task-2" taskPending2, phaseSet sys3.2 "task-2" .scheduled)

/-! ## Helper lemmas -/

/-- ASCII lowercasing maps whitespace to whitespace and non-whitespace
to non-whitespace. -/
theorem isPySpace_pyLowerChar (c : Nat) :
    isPySpace (pyLowerChar c) = isPySpace c := by
  unfold pyLowerChar isPySpace
  split
  · next h =>
    simp only [decide_eq_decide]
    omega
  · rfl

/-- `pySplitAux` commutes with a character map that preserves
whitespace-ness. -/
theorem pySplitAux_map (f : Nat → Nat)
    (hf : ∀ c, isPySpace (f c) = isPySpace c) (s : List Nat) :
    ∀ cur : List Nat,
      pySplitAux (s.map f) (cur.map f) = (pySplitAux s cur).map (List.map f) := by
  induction s with
  | nil =>
    intro cur
    cases cur with
    | nil => rfl
    | cons a l =>
      simp [pySplitAux, List.map_reverse]
  | cons c rest ih =>
    intro cur
    simp only [List.map_cons, pySplitAux, hf c]
    by_cases hc : isPySpace c
    · simp only [hc, if_true]
      cases cur with
      | nil => simpa using ih []
      | cons a l =>
        simpa [List.map_reverse] using ih []
    · simp only [hc, if_false, Bool.false_eq_true]
      exact ih (c :: cur)

/-- Lowercasing the text does not change the number of words
`str.split()` produces. -/
theorem length_pySplit_pyLower (s : List Nat) :
    (pySplit (pyLower s)).length = (pySplit s).length := by
  unfold pySplit pyLower
  have h := pySplitAux_map pyLowerChar isPySpace_pyLowerChar s []
  simp only [List.map_nil] at h
  rw [h, List.length_map]

/-- `analyze_transcript` leaves the text and the confidence unchanged
and recomputes `word_count` as the word count of the lowered text. -/
theorem analyze_transcript_spec (t : Transcript) :
    (analyze_transcript t).text = t.text
    ∧ (analyze_transcript t).confidence = t.confidence
    ∧ (analyze_transcript t).word_count = (pySplit (pyLower t.text)).length := by
  refine ⟨rfl, rfl, rfl⟩

/-- Updating a key makes it present with the new value. -/
theorem dbGet_dbSet_self (db : TasksDb) (k : String) (v : TaskRecord) :
    dbGet (dbSet db k v) k = some v := by
  induction db with
  | nil => simp [dbSet, dbGet]
  | cons p rest ih =>
    obtain ⟨k', v'⟩ := p
    by_cases h : k' = k
    · subst h
      simp [dbSet, dbGet]
    · simp only [dbSet, if_neg h]
      simpa [dbGet, h] using ih

/-- Updating one key leaves every other key unchanged. -/
theorem dbGet_dbSet_ne (db : TasksDb) (k k' : String) (v : TaskRecord)
    (h : k' ≠ k) : dbGet (dbSet db k v) k' = dbGet db k' := by
  induction db with
  | nil => simp [dbSet, dbGet, if_neg (Ne.symm h)]
  | cons p rest ih =>
    obtain ⟨k₀, v₀⟩ := p
    by_cases h0 : k₀ = k
    · subst h0
      simp [dbSet, dbGet, if_neg (Ne.symm h)]
    · simp only [dbSet, if_neg h0]
      by_cases h1 : k₀ = k'
      · subst h1
        simp [dbGet]
      · simpa [dbGet, h1] using ih

/-- Updating a phase makes it present with the new value. -/
theorem phaseGet_phaseSet_self (ph : PhaseMap) (k : String) (v : Phase) :
    phaseGet (phaseSet ph k v) k = some v := by
  induction ph with
  | nil => simp [phaseSet, phaseGet]
  | cons p rest ih =>
    obtain ⟨k', v'⟩ := p
    by_cases h : k' = k
    · subst h
      simp [phaseSet, phaseGet]
    · simp only [phaseSet, if_neg h]
      simpa [phaseGet, h] using ih

/-- Updating one phase leaves every other key unchanged. -/
theorem phaseGet_phaseSet_ne (ph : PhaseMap) (k k' : String) (v : Phase)
    (h : k' ≠ k) : phaseGet (phaseSet ph k v) k' = phaseGet ph k' := by
  induction ph with
  | nil => simp [phaseSet, phaseGet, if_neg (Ne.symm h)]
  | cons p rest ih =>
    obtain ⟨k₀, v₀⟩ := p
    by_cases h0 : k₀ = k
    · subst h0
      simp [phaseSet, phaseGet, if_neg (Ne.symm h)]
    · simp only [phaseSet, if_neg h0]
      by_cases h1 : k₀ = k'
      · subst h1
        simp [phaseGet]
      · simpa [phaseGet, h1] using ih

/-- `mockBase` takes one of five values, all multiples of 0.5 inside
`[4, 9]`. -/
theorem mockBase_cases (ts : List Transcript) :
    mockBase ts = 11/2 ∨ mockBase ts = 6 ∨ mockBase ts = 13/2
      ∨ mockBase ts = 7 ∨ mockBase ts = 15/2 := by
  unfold mockBase
  dsimp only
  split_ifs <;> norm_num [min_def, max_def]

/-- `mockBase` always yields a multiple of 0.5 inside `[4, 9]`. -/
theorem mockBase_halves (ts : List Transcript) :
    ∃ k : ℤ, mockBase ts = (k : ℚ) / 2
      ∧ 4 ≤ mockBase ts ∧ mockBase ts ≤ 9 := by
  rcases mockBase_cases ts with h | h | h | h | h <;> rw [h]
  · exact ⟨11, by norm_num⟩
  · exact ⟨12, by norm_num⟩
  · exact ⟨13, by norm_num⟩
  · exact ⟨14, by norm_num⟩
  · exact ⟨15, by norm_num⟩

/-- Python `max(..., key=...)` over the four ordered criterion entries
returns the first entry attaining the maximum value. -/
theorem pyMaxByValue_spec (f l g p : ℚ) :
    pyMaxByValue ("fluency", f)
      [("vocabulary", l), ("grammar", g), ("pronunciation", p)]
      = specFirstMax f l g p := by
  unfold pyMaxByValue specFirstMax
  simp only [List.foldl]
  dsimp only
  by_cases h1 : l > f
  · rw [if_pos h1]
    dsimp only
    by_cases h2 : g > l
    · rw [if_pos h2]
      dsimp only
      by_cases h3 : p > g
      · rw [if_pos h3]
        have hm : max (max (max f l) g) p = p := by
          rw [max_eq_right (le_of_lt h1), max_eq_right (le_of_lt h2),
            max_eq_right (le_of_lt h3)]
        rw [hm, if_neg (ne_of_lt (lt_trans (lt_trans h1 h2) h3)),
          if_neg (ne_of_lt (lt_trans h2 h3)), if_neg (ne_of_lt h3)]
      · rw [if_neg h3]
        have hm : max (max (max f l) g) p = g := by
          rw [max_eq_right (le_of_lt h1), max_eq_right (le_of_lt h2),
            max_eq_left (not_lt.mp h3)]
        rw [hm, if_neg (ne_of_lt (lt_trans h1 h2)), if_neg (ne_of_lt h2),
          if_pos rfl]
    · rw [if_neg h2]
      dsimp only
      by_cases h3 : p > l
      · rw [if_pos h3]
        have hm : max (max (max f l) g) p = p := by
          rw [max_eq_right (le_of_lt h1), max_eq_left (not_lt.mp h2),
            max_eq_right (le_of_lt h3)]
        rw [hm, if_neg (ne_of_lt (lt_trans h1 h3)), if_neg (ne_of_lt h3),
          if_neg (ne_of_lt (lt_of_le_of_lt (not_lt.mp h2) h3))]
      · rw [if_neg h3]
        have hm : max (max (max f l) g) p = l := by
          rw [max_eq_right (le_of_lt h1), max_eq_left (not_lt.mp h2),
            max_eq_left (not_lt.mp h3)]
        rw [hm, if_neg (ne_of_lt h1), if_pos rfl]
  · rw [if_neg h1]
    dsimp only
    by_cases h2 : g > f
    · rw [if_pos h2]
      dsimp only
      by_cases h3 : p > g
      · rw [if_pos h3]
        have hm : max (max (max f l) g) p = p := by
          rw [max_eq_left (not_lt.mp h1), max_eq_right (le_of_lt h2),
            max_eq_right (le_of_lt h3)]
        rw [hm, if_neg (ne_of_lt (lt_trans h2 h3)),
          if_neg (ne_of_lt (lt_of_le_of_lt (not_lt.mp h1) (lt_trans h2 h3))),
          if_neg (ne_of_lt h3)]
      · rw [if_neg h3]
        have hm : max (max (max f l) g) p = g := by
          rw [max_eq_left (not_lt.mp h1), max_eq_right (le_of_lt h2),
            max_eq_left (not_lt.mp h3)]
        rw [hm, if_neg (ne_of_lt h2),
          if_neg (ne_of_lt (lt_of_le_of_lt (not_lt.mp h1) h2)), if_pos rfl]
    · rw [if_neg h2]
      dsimp only
      by_cases h3 : p > f
      · rw [if_pos h3]
        have hm : max (max (max f l) g) p = p := by
          rw [max_eq_left (not_lt.mp h1), max_eq_left (not_lt.mp h2),
            max_eq_right (le_of_lt h3)]
        rw [hm, if_neg (ne_of_lt h3),
          if_neg (ne_of_lt (lt_of_le_of_lt (not_lt.mp h1) h3)),
          if_neg (ne_of_lt (lt_of_le_of_lt (not_lt.mp h2) h3))]
      · rw [if_neg h3]
        have hm : max (max (max f l) g) p = f := by
          rw [max_eq_left (not_lt.mp h1), max_eq_left (not_lt.mp h2),
            max_eq_left (not_lt.mp h3)]
        rw [hm, if_pos rfl]

/-- Python `min(..., key=...)` over the four ordered criterion entries
returns the first entry attaining the minimum value. -/
theorem pyMinByValue_spec (f l g p : ℚ) :
    pyMinByValue ("fluency", f)
      [("vocabulary", l), ("grammar", g), ("pronunciation", p)]
      = specFirstMin f l g p := by
  unfold pyMinByValue specFirstMin
  simp only [List.foldl]
  dsimp only
  by_cases h1 : l < f
  · rw [if_pos h1]
    dsimp only
    by_cases h2 : g < l
    · rw [if_pos h2]
      dsimp only
      by_cases h3 : p < g
      · rw [if_pos h3]
        have hm : min (min (min f l) g) p = p := by
          rw [min_eq_right (le_of_lt h1), min_eq_right (le_of_lt h2),
            min_eq_right (le_of_lt h3)]
        rw [hm, if_neg (ne_of_gt (lt_trans h3 (lt_trans h2 h1))),
          if_neg (ne_of_gt (lt_trans h3 h2)), if_neg (ne_of_gt h3)]
      · rw [if_neg h3]
        have hm : min (min (min f l) g) p = g := by
          rw [min_eq_right (le_of_lt h1), min_eq_right (le_of_lt h2),
            min_eq_left (not_lt.mp h3)]
        rw [hm, if_neg (ne_of_gt (lt_trans h2 h1)), if_neg (ne_of_gt h2),
          if_pos rfl]
    · rw [if_neg h2]
      dsimp only
      by_cases h3 : p < l
      · rw [if_pos h3]
        have hm : min (min (min f l) g) p = p := by
          rw [min_eq_right (le_of_lt h1), min_eq_left (not_lt.mp h2),
            min_eq_right (le_of_lt h3)]
        rw [hm, if_neg (ne_of_gt (lt_trans h3 h1)), if_neg (ne_of_gt h3),
          if_neg (ne_of_gt (lt_of_lt_of_le h3 (not_lt.mp h2)))]
      · rw [if_neg h3]
        have hm : min (min (min f l) g) p = l := by
          rw [min_eq_right (le_of_lt h1), min_eq_left (not_lt.mp h2),
            min_eq_left (not_lt.mp h3)]
        rw [hm, if_neg (ne_of_gt h1), if_pos rfl]
  · rw [if_neg h1]
    dsimp only
    by_cases h2 : g < f
    · rw [if_pos h2]
      dsimp only
      by_cases h3 : p < g
      · rw [if_pos h3]
        have hm : min (min (min f l) g) p = p := by
          rw [min_eq_left (not_lt.mp h1), min_eq_right (le_of_lt h2),
            min_eq_right (le_of_lt h3)]
        rw [hm, if_neg (ne_of_gt (lt_trans h3 h2)),
          if_neg (ne_of_gt (lt_of_lt_of_le (lt_trans h3 h2) (not_lt.mp h1))),
          if_neg (ne_of_gt h3)]
      · rw [if_neg h3]
        have hm : min (min (min f l) g) p = g := by
          rw [min_eq_left (not_lt.mp h1), min_eq_right (le_of_lt h2),
            min_eq_left (not_lt.mp h3)]
        rw [hm, if_neg (ne_of_gt h2),
          if_neg (ne_of_gt (lt_of_lt_of_le h2 (not_lt.mp h1))), if_pos rfl]
    · rw [if_neg h2]
      dsimp only
      by_cases h3 : p < f
      · rw [if_pos h3]
        have hm : min (min (min f l) g) p = p := by
          rw [min_eq_left (not_lt.mp h1), min_eq_left (not_lt.mp h2),
            min_eq_right (le_of_lt h3)]
        rw [hm, if_neg (ne_of_gt h3),
          if_neg (ne_of_gt (lt_of_lt_of_le h3 (not_lt.mp h1))),
          if_neg (ne_of_gt (lt_of_lt_of_le h3 (not_lt.mp h2)))]
      · rw [if_neg h3]
        have hm : min (min (min f l) g) p = f := by
          rw [min_eq_left (not_lt.mp h1), min_eq_left (not_lt.mp h2),
            min_eq_left (not_lt.mp h3)]
        rw [hm, if_pos rfl]

/-- Rounding a half-integer shifted by one eighth back to the nearest
half returns the half-integer. -/
theorem roundToNearestHalf_half_add_eighth (k : ℤ) :
    roundToNearestHalf ((k : ℚ) / 2 + 1/8) = (k : ℚ) / 2 := by
  unfold roundToNearestHalf
  have h : (2 : ℚ) * ((k : ℚ) / 2 + 1/8) + 1/2 = 3/4 + (k : ℚ) := by ring
  rw [h]
  have h34 : ⌊(3 / 4 : ℚ) + (k : ℚ)⌋ = k := by
    rw [Int.floor_add_int]
    have : ⌊(3 / 4 : ℚ)⌋ = 0 := by
      rw [Int.floor_eq_zero_iff]
      constructor <;> norm_num
    rw [this]
    ring
  rw [h34]

/-- The target comparison never changes the overall band or the
attempt id. -/
theorem apply_target_preserves (tb : Option ℚ) (s : BandScore) :
    (apply_target tb s).overall_band = s.overall_band
    ∧ (apply_target tb s).attempt_id = s.attempt_id := by
  cases tb with
  | none => exact ⟨rfl, rfl⟩
  | some t =>
    unfold apply_target
    dsimp only
    split_ifs <;> exact ⟨rfl, rfl⟩

/-- After analysis, the stored word count is the `str.split()` word
count of the stored text. -/
theorem analyze_word_count (t : Transcript) :
    (analyze_transcript t).word_count
      = (pySplit (analyze_transcript t).text).length := by
  have h1 : (analyze_transcript t).text = t.text := rfl
  have h2 : (analyze_transcript t).word_count
      = (pySplit (pyLower t.text)).length := rfl
  rw [h1, h2, length_pySplit_pyLower]

/-- `statusStepOK` is reflexive: a step may leave a task untouched. -/
theorem statusStepOK_refl (o : Option TaskStatus) : statusStepOK o o := by
  cases o with
  | none => trivial
  | some s => exact Or.inl rfl

/-- The status/phase correspondence holds initially (no task, nothing
scheduled). -/
theorem phaseInv_init : PhaseInv sysInit := by
  intro tid
  refine ⟨fun _ => rfl, ?_, ?_, ?_⟩ <;>
    (intro h; simp [sysInit, phaseGet] at h)

/-- Every step preserves the status/phase correspondence. -/
theorem phaseInv_step (s s' : SysState) (hinv : PhaseInv s)
    (h : Step s s') : PhaseInv s' := by
  cases h with
  | create task_id attempt_id hfresh =>
    intro tid
    dsimp only
    by_cases ht : tid = task_id
    · subst ht
      rw [phaseGet_phaseSet_self, dbGet_dbSet_self]
      exact ⟨fun h0 => absurd h0 (by decide), fun _ => ⟨_, rfl, rfl⟩,
        fun h0 => absurd h0 (by decide), fun h0 => absurd h0 (by decide)⟩
    · rw [phaseGet_phaseSet_ne _ _ _ _ ht, dbGet_dbSet_ne _ _ _ _ ht]
      exact hinv tid
  | start task_id t hph hget =>
    intro tid
    dsimp only
    by_cases ht : tid = task_id
    · subst ht
      rw [phaseGet_phaseSet_self, dbGet_dbSet_self]
      exact ⟨fun h0 => absurd h0 (by decide), fun h0 => absurd h0 (by decide),
        fun _ => ⟨_, rfl, rfl⟩, fun h0 => absurd h0 (by decide)⟩
    · rw [phaseGet_phaseSet_ne _ _ _ _ ht, dbGet_dbSet_ne _ _ _ _ ht]
      exact hinv tid
  | finishOk task_id score_id feedback_id t hph hget =>
    intro tid
    dsimp only
    by_cases ht : tid = task_id
    · subst ht
      rw [phaseGet_phaseSet_self, dbGet_dbSet_self]
      exact ⟨fun h0 => absurd h0 (by decide), fun h0 => absurd h0 (by decide),
        fun h0 => absurd h0 (by decide), fun _ => ⟨_, rfl, Or.inl rfl⟩⟩
    · rw [phaseGet_phaseSet_ne _ _ _ _ ht, dbGet_dbSet_ne _ _ _ _ ht]
      exact hinv tid
  | finishFail task_id error_msg t hph hget =>
    intro tid
    dsimp only
    by_cases ht : tid = task_id
    · subst ht
      rw [phaseGet_phaseSet_self, dbGet_dbSet_self]
      exact ⟨fun h0 => absurd h0 (by decide), fun h0 => absurd h0 (by decide),
        fun h0 => absurd h0 (by decide), fun _ => ⟨_, rfl, Or.inr rfl⟩⟩
    · rw [phaseGet_phaseSet_ne _ _ _ _ ht, dbGet_dbSet_ne _ _ _ _ ht]
      exact hinv tid

/-- The status/phase correspondence holds in every reachable state. -/
theorem phaseInv_reachable (s : SysState) (h : Reaches sysInit s) :
    PhaseInv s := by
  induction h with
  | refl => exact phaseInv_init
  | tail _ hstep ih => exact phaseInv_step _ _ ih hstep

/-- In a state satisfying the status/phase correspondence, every step
changes each task's status only along the allowed edges (the
`start`/`finish` writes are unconditional, but the phase of the
once-scheduled execution pins the status they overwrite). -/
theorem statusStepOK_of_step (s s' : SysState) (hinv : PhaseInv s)
    (h : Step s s') (tid : String) :
    statusStepOK (statusOf s.1 tid) (statusOf s'.1 tid) := by
  cases h with
  | create task_id attempt_id hfresh =>
    dsimp only
    by_cases ht : tid = task_id
    · subst ht
      rw [statusOf, statusOf, hfresh, dbGet_dbSet_self]
      exact rfl
    · rw [statusOf, statusOf, dbGet_dbSet_ne _ _ _ _ ht]
      exact statusStepOK_refl _
  | start task_id t hph hget =>
    dsimp only
    by_cases ht : tid = task_id
    · subst ht
      obtain ⟨t', hget', hst'⟩ := (hinv tid).2.1 hph
      rw [hget] at hget'
      have ht' := Option.some.inj hget'
      subst ht'
      rw [statusOf, statusOf, hget, dbGet_dbSet_self]
      exact Or.inr (Or.inl ⟨hst', rfl⟩)
    · rw [statusOf, statusOf, dbGet_dbSet_ne _ _ _ _ ht]
      exact statusStepOK_refl _
  | finishOk task_id score_id feedback_id t hph hget =>
    dsimp only
    by_cases ht : tid = task_id
    · subst ht
      obtain ⟨t', hget', hst'⟩ := (hinv tid).2.2.1 hph
      rw [hget] at hget'
      have ht' := Option.some.inj hget'
      subst ht'
      rw [statusOf, statusOf, hget, dbGet_dbSet_self]
      exact Or.inr (Or.inr ⟨hst', Or.inl rfl⟩)
    · rw [statusOf, statusOf, dbGet_dbSet_ne _ _ _ _ ht]
      exact statusStepOK_refl _
  | finishFail task_id error_msg t hph hget =>
    dsimp only
    by_cases ht : tid = task_id
    · subst ht
      obtain ⟨t', hget', hst'⟩ := (hinv tid).2.2.1 hph
      rw [hget] at hget'
      have ht' := Option.some.inj hget'
      subst ht'
      rw [statusOf, statusOf, hget, dbGet_dbSet_self]
      exact Or.inr (Or.inr ⟨hst', Or.inr rfl⟩)
    · rw [statusOf, statusOf, dbGet_dbSet_ne _ _ _ _ ht]
      exact statusStepOK_refl _

/-- No allowed edge leaves a terminal status. -/
theorem statusStepOK_terminal (s0 : TaskStatus)
    (hs0 : s0 = .completed ∨ s0 = .failed) (x : Option TaskStatus)
    (h : statusStepOK (some s0) x) : x = some s0 := by
  cases x with
  | none => exact absurd h (by simp [statusStepOK])
  | some s =>
    rcases h with h | ⟨h, _⟩ | ⟨h, _⟩
    · rw [h]
    · rcases hs0 with h0 | h0 <;> (rw [h0] at h; exact absurd h (by decide))
    · rcases hs0 with h0 | h0 <;> (rw [h0] at h; exact absurd h (by decide))

/-! ## Claims -/

/-- C8: every Transcript produced by the transcription stage
(`TranscriptionService.transcribe_audio`, any provider configuration,
any backend behaviour, any audio) satisfies `0 ≤ confidence ≤ 1` and
`word_count = len(text.split())`. -/
theorem transcript_confidence_and_word_count_invariant
    (provider : String) (key : Option String)
    (backend : List Nat → Nat → Option WhisperResult) (audio : List Nat) :
    0 ≤ (transcribe_audio provider key backend audio).confidence
    ∧ (transcribe_audio provider key backend audio).confidence ≤ 1
    ∧ (transcribe_audio provider key backend audio).word_count
        = (pySplit (transcribe_audio provider key backend audio).text).length := by
  have hc : (transcribe_audio provider key backend audio).confidence = 9/10
      ∨ (transcribe_audio provider key backend audio).confidence = 92/100 := by
    show (analyze_transcript (if provider = "openai" ∧ key.isSome then
        transcribe_with_whisper backend audio else mock_transcription)).confidence
          = 9/10
      ∨ (analyze_transcript (if provider = "openai" ∧ key.isSome then
        transcribe_with_whisper backend audio else mock_transcription)).confidence
          = 92/100
    split_ifs
    · unfold transcribe_with_whisper
      cases backend audio 0 with
      | none => exact Or.inr rfl
      | some r => exact Or.inl rfl
    · exact Or.inr rfl
  refine ⟨?_, ?_, analyze_word_count _⟩
  · rcases hc with h | h <;> rw [h] <;> norm_num
  · rcases hc with h | h <;> rw [h] <;> norm_num

/-- C9: feedback generation is a deterministic function of the
`BandScore`; each criterion feedback string is selected from its fixed
three-template set by the tiers `≥7.0 / ≥6.0 / <6.0`, and the
strongest/weakest area is the first criterion, in the fixed order
fluency, lexical ("vocabulary"), grammar, pronunciation, attaining the
maximum/minimum of the four criterion scores. -/
theorem feedback_tiers_and_extremes :
    (∀ (score : BandScore) (ts : List Transcript),
      (generate_feedback score ts).fluency_feedback
          = specSelectByTier
              ⟨"Excellent fluency with rare hesitation. Ideas flow naturally.",
               "Generally fluent with occasional self-correction. Work on reducing pauses.",
               "Noticeable pauses affect fluency. Practice speaking continuously for longer periods."⟩
              score.fluency_coherence
      ∧ (generate_feedback score ts).lexical_feedback
          = specSelectByTier
              ⟨"Good vocabulary range with precise word choices.",
               "Adequate vocabulary for most topics. Try using more idiomatic expressions.",
               "Limited vocabulary range. Focus on learning topic-specific vocabulary."⟩
              score.lexical_resource
      ∧ (generate_feedback score ts).grammar_feedback
          = specSelectByTier
              ⟨"Complex structures used accurately with rare errors.",
               "Mix of simple and complex structures. Some errors don\x27t impede communication.",
               "Basic structures with frequent errors. Review fundamental grammar rules."⟩
              score.grammatical_range_accuracy
      ∧ (generate_feedback score ts).pronunciation_feedback
          = specSelectByTier
              ⟨"Clear pronunciation with natural intonation patterns.",
               "Generally clear with occasional mispronunciation.",
               "Pronunciation issues affect clarity. Practice individual sounds and word stress."⟩
              score.pronunciation)
    ∧ (∀ score : BandScore,
        get_strongest_area score
          = specFirstMax score.fluency_coherence score.lexical_resource
              score.grammatical_range_accuracy score.pronunciation)
    ∧ (∀ score : BandScore,
        get_weakest_area score
          = specFirstMin score.fluency_coherence score.lexical_resource
              score.grammatical_range_accuracy score.pronunciation) :=
  ⟨fun _ _ => ⟨rfl, rfl, rfl, rfl⟩,
   fun score => pyMaxByValue_spec score.fluency_coherence score.lexical_resource
     score.grammatical_range_accuracy score.pronunciation,
   fun score => pyMinByValue_spec score.fluency_coherence score.lexical_resource
     score.grammatical_range_accuracy score.pronunciation⟩

/-- C10: the fallback/mock scorer always returns an `overall_band` that
is a multiple of 0.5 in `[4, 9]`; for the empty transcript list it is
exactly 6.0; and for non-empty lists it is determined only by the
average word count and the total filler-word count. -/
theorem mock_scoring_range_and_determinism :
    ((mock_scoring []).overall_band = 6)
    ∧ (∀ ts : List Transcript, ∃ k : ℤ,
        (mock_scoring ts).overall_band = (k : ℚ) / 2
        ∧ 4 ≤ (mock_scoring ts).overall_band
        ∧ (mock_scoring ts).overall_band ≤ 9)
    ∧ (∀ ts1 ts2 : List Transcript, ts1 ≠ [] → ts2 ≠ [] →
        avgWords ts1 = avgWords ts2 → totalFillers ts1 = totalFillers ts2 →
        (mock_scoring ts1).overall_band = (mock_scoring ts2).overall_band) := by
  refine ⟨by decide, fun ts => mockBase_halves ts, ?_⟩
  intro ts1 ts2 h1 h2 havg hfill
  show mockBase ts1 = mockBase ts2
  cases ts1 with
  | nil => exact absurd rfl h1
  | cons x xs =>
    cases ts2 with
    | nil => exact absurd rfl h2
    | cons y ys =>
      unfold mockBase
      dsimp only
      simp only [List.isEmpty_cons, Bool.false_eq_true, if_false]
      rw [havg, hfill]

/-- C10 witness: two concrete distinct transcript lists with average
word count 60 and 3 total filler words get the same overall band. -/
theorem mock_scoring_range_and_determinism_witness :
    ([tWords60] ≠ ([] : List Transcript))
    ∧ ([tWords60'] ≠ ([] : List Transcript))
    ∧ avgWords [tWords60] = avgWords [tWords60']
    ∧ totalFillers [tWords60] = totalFillers [tWords60']
    ∧ (mock_scoring [tWords60]).overall_band
        = (mock_scoring [tWords60']).overall_band :=
  ⟨by decide, by decide,
   by norm_num [avgWords, tWords60, tWords60'], by decide,
   mock_scoring_range_and_determinism.2.2 [tWords60] [tWords60']
     (by decide) (by decide)
     (by norm_num [avgWords, tWords60, tWords60']) (by decide)⟩

/-- C1 counterexample: no single aggregation function of the four
criterion scores yields `overall_band` for every BandScore produced by
the scoring stage: two backend responses with identical criteria
(7,7,7,7) but different overall bands (9 vs 5) are passed through
unchanged by the AI-backed path. -/
theorem overall_band_not_function_of_criteria :
    ¬ ∃ f : ℚ → ℚ → ℚ → ℚ → ℚ,
      ∀ (backend : Option AssessResult) (ts : List Transcript),
        (score_with_gpt backend ts).overall_band
          = f (score_with_gpt backend ts).fluency_coherence
              (score_with_gpt backend ts).lexical_resource
              (score_with_gpt backend ts).grammatical_range_accuracy
              (score_with_gpt backend ts).pronunciation := by
  rintro ⟨f, hf⟩
  have h1 : (9 : ℚ) = f 7 7 7 7 := hf (some assessHighOverall) [tWords60]
  have h2 : (5 : ℚ) = f 7 7 7 7 := hf (some assessLowOverall) [tWords60]
  exact absurd (h1.trans h2.symm) (by norm_num)

/-- C1 amended: the fallback/mock path does satisfy the aggregation
law — its overall band equals the mean of its four criterion scores
rounded to the nearest 0.5 — while the AI-backed path simply copies
`overall_band` from the backend response (default 6.0), so no
aggregation law ties it to the criteria. -/
theorem mock_overall_is_rounded_mean :
    (∀ ts : List Transcript,
      (mock_scoring ts).overall_band
        = roundToNearestHalf (((mock_scoring ts).fluency_coherence
            + (mock_scoring ts).lexical_resource
            + (mock_scoring ts).grammatical_range_accuracy
            + (mock_scoring ts).pronunciation) / 4))
    ∧ (∀ (r : AssessResult) (t : Transcript) (rest : List Transcript),
        (score_with_gpt (some r) (t :: rest)).overall_band
          = r.overall_band.getD 6) := by
  refine ⟨?_, fun _ _ _ => rfl⟩
  intro ts
  obtain ⟨k, hk, _, _⟩ := mockBase_halves ts
  show mockBase ts
    = roundToNearestHalf ((mockBase ts + 1/2 + (mockBase ts - 1/2)
        + mockBase ts + (mockBase ts + 1/2)) / 4)
  rw [hk]
  have h : ((k : ℚ)/2 + 1/2 + ((k : ℚ)/2 - 1/2) + (k : ℚ)/2
      + ((k : ℚ)/2 + 1/2)) / 4 = (k : ℚ)/2 + 1/8 := by ring
  rw [h, roundToNearestHalf_half_add_eighth]

/-- C2 counterexample: creating a second assessment task for an
attempt that already has a pending task does not fail — the endpoint
answers `pending` again and the store then holds two non-terminal
tasks for the same attempt id. -/
theorem second_create_succeeds_two_nonterminal :
    nonTerminalTasks
      (score_attempt
        (score_attempt [] "task-1" "attempt-A" false).1
        "task-2" "attempt-A" false).1 "attempt-A" = 2
    ∧ (score_attempt
        (score_attempt [] "task-1" "attempt-A" false).1
        "task-2" "attempt-A" false).2.status = "pending" := by
  decide

/-- C2 amended: `score_attempt` performs no uniqueness check — for
every store state it succeeds, answers `pending`, stores a fresh
pending task under the given id, and leaves every other task (in
particular any non-terminal task of the same attempt) untouched, so
several non-terminal tasks per attempt are reachable. -/
theorem score_attempt_always_creates_pending (db : TasksDb)
    (task_id attempt_id : String) (urgent : Bool) :
    (score_attempt db task_id attempt_id urgent).2.status = "pending"
    ∧ (score_attempt db task_id attempt_id urgent).2.task_id = task_id
    ∧ dbGet (score_attempt db task_id attempt_id urgent).1 task_id
        = some { id := task_id, status := .pending, attempt_id := attempt_id }
    ∧ ∀ tid, tid ≠ task_id →
        dbGet (score_attempt db task_id attempt_id urgent).1 tid
          = dbGet db tid := by
  refine ⟨rfl, rfl, dbGet_dbSet_self db task_id _, ?_⟩
  intro tid htid
  exact dbGet_dbSet_ne db task_id tid _ htid

/-- C2 amended witness: creation into a store that already holds a
pending task for the same attempt succeeds and preserves that task. -/
theorem score_attempt_always_creates_pending_witness :
    (("task-1" : String) ≠ "task-2")
    ∧ dbGet (score_attempt [("task-1", taskPending1)]
        "task-2" "attempt-A" false).1 "task-1"
      = dbGet [("task-1", taskPending1)] "task-1" :=
  ⟨by decide,
   (score_attempt_always_creates_pending [("task-1", taskPending1)]
     "task-2" "attempt-A" false).2.2.2 "task-1" (by decide)⟩

/-- The chain create → start → finishOk for `task-1` reaches `sys3`
from the initial state. -/
theorem reaches_sysInit_sys3 : Reaches sysInit sys3 :=
  Relation.ReflTransGen.tail
    (Relation.ReflTransGen.tail
      (Relation.ReflTransGen.single
        (Step.create sysInit "task-1" "attempt-A" rfl))
      (Step.start sys1 "task-1" taskPending1 (by decide) (by decide)))
    (Step.finishOk sys2 "task-1" "score-1" "fb-1" rec1Processing
      (by decide) (by decide))

/-- C3: along every evolution of `tasks_db` reachable from the empty
initial store, each task's status moves only along
`pending → processing → {completed, failed}`, and no operation ever
changes the status of a task that is `completed` or `failed`. -/
theorem task_status_pipeline_monotone :
    (∀ s s' : SysState, Reaches sysInit s → Step s s' → ∀ tid : String,
      statusStepOK (statusOf s.1 tid) (statusOf s'.1 tid))
    ∧ (∀ s s' : SysState, Reaches sysInit s → Reaches s s' →
        ∀ tid : String,
        statusOf s.1 tid = some .completed ∨ statusOf s.1 tid = some .failed →
        statusOf s'.1 tid = statusOf s.1 tid) := by
  have hstep1 : ∀ s s' : SysState, Reaches sysInit s → Step s s' →
      ∀ tid : String, statusStepOK (statusOf s.1 tid) (statusOf s'.1 tid) :=
    fun s s' hre h tid =>
      statusStepOK_of_step s s' (phaseInv_reachable s hre) h tid
  refine ⟨hstep1, ?_⟩
  intro s s' hinit h tid hterm
  induction h with
  | refl => rfl
  | tail hab hstep ih =>
    have h2 := hstep1 _ _ (Relation.ReflTransGen.trans hinit hab) hstep tid
    rw [ih] at h2
    rcases hterm with h1 | h1
    · rw [h1] at h2 ⊢
      exact statusStepOK_terminal _ (Or.inl rfl) _ h2
    · rw [h1] at h2 ⊢
      exact statusStepOK_terminal _ (Or.inr rfl) _ h2

/-- C3 witness: after the reachable chain create → start → complete for
`task-1`, a further concrete step (creating `task-2`) respects the
allowed edges and leaves the completed status of `task-1` unchanged. -/
theorem task_status_pipeline_monotone_witness :
    statusStepOK (statusOf sys3.1 "task-1") (statusOf sys4.1 "task-1")
    ∧ statusOf sys4.1 "task-1" = statusOf sys3.1 "task-1" :=
  ⟨task_status_pipeline_monotone.1 sys3 sys4 reaches_sysInit_sys3
    (Step.create sys3 "task-2" "attempt-A" (by decide)) "task-1",
   task_status_pipeline_monotone.2 sys3 sys4 reaches_sysInit_sys3
    (Relation.ReflTransGen.single
      (Step.create sys3 "task-2" "attempt-A" (by decide))) "task-1"
    (Or.inl (by decide))⟩

/-- C4 counterexample: invoking the scoring stage with an empty
transcript list does not fail — it returns the fallback BandScore with
overall band 6.0 and attempt id "mock" (there is no
`NoTranscriptsAvailable` error anywhere in the code). -/
theorem scoring_empty_list_returns_score :
    (calculate_band_score "google" none none none [] none).toOption.map
      (fun s => (s.overall_band, s.attempt_id)) = some (6, "mock") := by
  decide

/-- C4 amended: for every provider configuration that does not take the
(undefined) anthropic branch, scoring an empty transcript list
succeeds and returns the fallback score with overall band 6.0 and
attempt id "mock" — both the fallback path and the AI path (whose
`transcripts[0].part` IndexError is swallowed into the mock scorer)
behave this way. -/
theorem scoring_empty_list_default_score (provider : String)
    (key akey : Option String) (backend : Option AssessResult)
    (target : Option ℚ)
    (h : ¬ (provider = "anthropic" ∧ akey.isSome)) :
    (calculate_band_score provider key akey backend [] target).toOption.map
      (fun s => (s.overall_band, s.attempt_id)) = some (6, "mock") := by
  unfold calculate_band_score
  have hmock : ((apply_target target (mock_scoring [])).overall_band,
      (apply_target target (mock_scoring [])).attempt_id) = (6, "mock") := by
    rw [(apply_target_preserves target (mock_scoring [])).1,
      (apply_target_preserves target (mock_scoring [])).2]
    decide
  by_cases h1 : provider = "openai" ∧ key.isSome
  · rw [if_pos h1]
    exact congrArg some hmock
  · rw [if_neg h1, if_neg h]
    exact congrArg some hmock

/-- C4 amended witness: the openai-with-key configuration (empty list,
backend present) also yields the default score. -/
theorem scoring_empty_list_default_score_witness :
    (¬ (("openai" : String) = "anthropic" ∧ (none : Option String).isSome))
    ∧ (calculate_band_score "openai" (some "key") none
        (some assessHighOverall) [] none).toOption.map
        (fun s => (s.overall_band, s.attempt_id)) = some (6, "mock") :=
  ⟨by decide,
   scoring_empty_list_default_score "openai" (some "key") none
     (some assessHighOverall) none (by decide)⟩

/-- C5 counterexample: with a backend whose first call fails and whose
second call would succeed, transcription returns the mock fallback (a
retry would have used the successful second call), and the fallback's
confidence 0.92 is higher — not lower — than the 0.9 assigned on the
success path. -/
theorem transcription_no_retry_counterexample :
    (transcribe_audio "openai" (some "key") failThenSucceed []).transcription_service
        = "mock"
    ∧ (transcribe_audio "openai" (some "key") failThenSucceed []).confidence
        = 92/100
    ∧ (transcribe_audio "openai" (some "key")
        (fun _ _ => some wresSample) []).confidence = 9/10
    ∧ ¬ ((92 : ℚ)/100 ≤ 9/10) := by
  refine ⟨rfl, rfl, rfl, by norm_num⟩

/-- C5 amended: when the transcription backend's (single) call fails,
transcription performs no retry and immediately returns the analysed
mock transcription — a valid Transcript with confidence 0.92 (not a
lowered one) — and the result depends only on the first backend call,
never propagating the failure as an error. -/
theorem transcription_fallback_no_retry :
    (∀ (key : String) (backend : List Nat → Nat → Option WhisperResult)
        (audio : List Nat), backend audio 0 = none →
      transcribe_audio "openai" (some key) backend audio
        = analyze_transcript mock_transcription)
    ∧ (∀ (key : String) (b b' : List Nat → Nat → Option WhisperResult)
        (audio : List Nat), b audio 0 = b' audio 0 →
      transcribe_audio "openai" (some key) b audio
        = transcribe_audio "openai" (some key) b' audio)
    ∧ (analyze_transcript mock_transcription).confidence = 92/100 := by
  refine ⟨?_, ?_, rfl⟩
  · intro key backend audio h
    show analyze_transcript (if ("openai" : String) = "openai"
        ∧ (some key).isSome then transcribe_with_whisper backend audio
        else mock_transcription) = analyze_transcript mock_transcription
    rw [if_pos ⟨rfl, rfl⟩]
    unfold transcribe_with_whisper
    rw [h]
  · intro key b b' audio h
    show analyze_transcript (if ("openai" : String) = "openai"
        ∧ (some key).isSome then transcribe_with_whisper b audio
        else mock_transcription)
      = analyze_transcript (if ("openai" : String) = "openai"
        ∧ (some key).isSome then transcribe_with_whisper b' audio
        else mock_transcription)
    rw [if_pos ⟨rfl, rfl⟩, if_pos ⟨rfl, rfl⟩]
    unfold transcribe_with_whisper
    rw [h]

/-- C5 amended witness: a concrete always-failing backend yields the
analysed mock transcription. -/
theorem transcription_fallback_no_retry_witness :
    ((fun (_ : List Nat) (_ : Nat) => (none : Option WhisperResult)) [] 0 = none)
    ∧ transcribe_audio "openai" (some "key") (fun _ _ => none) []
        = analyze_transcript mock_transcription :=
  ⟨rfl, transcription_fallback_no_retry.1 "key" (fun _ _ => none) [] rfl⟩

/-- C6 counterexample: a transcription request with empty audio is not
rejected — the endpoint succeeds and returns a Transcript (here the
analysed mock one, confidence 0.92); no `InvalidAudio` failure exists
anywhere in the transcription path. -/
theorem empty_audio_transcribed_counterexample :
    (transcribe_endpoint "google" none (fun _ _ => none) []
        (some "attempt-A") (some "part1") 0 "uuid-1").isOk = true
    ∧ (transcribe_endpoint "google" none (fun _ _ => none) []
        (some "attempt-A") (some "part1") 0 "uuid-1").toOption.map
        (fun t => t.confidence) = some (92/100) := by
  exact ⟨rfl, rfl⟩

/-- C6 amended: the transcription operation performs no audio
validation — for every provider configuration, backend behaviour and
audio input (the empty input included) the endpoint succeeds with a
Transcript; there is no `InvalidAudio` failure path, and the
configured `MIN_AUDIO_DURATION_MS`/`MAX_AUDIO_DURATION_MS` bounds are
never consulted. -/
theorem transcription_no_audio_validation :
    ∀ (provider : String) (key : Option String)
      (backend : List Nat → Nat → Option WhisperResult) (audio : List Nat)
      (aid part : Option String) (qi : Nat) (uuid : String),
      (transcribe_endpoint provider key backend audio aid part qi
        uuid).isOk = true :=
  fun _ _ _ _ _ _ _ _ => rfl

/-- C7 counterexample: a supplied target band of 0.0 is skipped by the
Python-truthiness guard `if target_band:`, so the returned score keeps
`gap_to_target = None` instead of `0.0 - 6.0 = -6.0`. -/
theorem zero_target_gap_not_computed :
    (calculate_band_score "google" none none none [] (some 0)).toOption.map
      (fun s => (s.target_band, s.gap_to_target, s.overall_band))
      = some (none, none, 6) := by
  decide

/-- C7 amended: whenever a non-zero target band is supplied and scoring
returns a score, that score carries `target_band` and
`gap_to_target = target_band - overall_band` (which may be negative);
a supplied target of exactly 0.0 is ignored like an absent one. -/
theorem gap_computed_for_nonzero_target (provider : String)
    (key akey : Option String) (backend : Option AssessResult)
    (ts : List Transcript) (tb : ℚ) (h : tb ≠ 0) :
    gapOK tb (calculate_band_score provider key akey backend ts (some tb)) := by
  unfold calculate_band_score
  split_ifs with h1 h2
  · show gapOK tb
      (Except.ok (apply_target (some tb) (score_with_gpt backend ts)))
    unfold gapOK apply_target
    dsimp only
    rw [if_neg h]
    exact ⟨rfl, rfl⟩
  · trivial
  · show gapOK tb (Except.ok (apply_target (some tb) (mock_scoring ts)))
    unfold gapOK apply_target
    dsimp only
    rw [if_neg h]
    exact ⟨rfl, rfl⟩

/-- C7 amended witness (Scenario D): target 7.5 over a mock-scored
attempt with overall 6.5 yields `gap_to_target = 1.0`. -/
theorem gap_computed_for_nonzero_target_witness :
    ((15 : ℚ)/2 ≠ 0)
    ∧ gapOK (15/2)
        (calculate_band_score "google" none none none [tWords60]
          (some (15/2)))
    ∧ (calculate_band_score "google" none none none [tWords60]
        (some (15/2))).toOption.map
        (fun s => (s.overall_band, s.gap_to_target))
        = some (13/2, some 1) :=
  ⟨by norm_num,
   gap_computed_for_nonzero_target "google" none none none [tWords60]
     (15/2) (by norm_num),
   by norm_num [calculate_band_score, apply_target, mock_scoring, mockBase,
     avgWords, totalFillers, tWords60, Except.toOption, min_def, max_def]⟩

end QanotAI
